import Mathlib

/-!
Verification of the inventory-resolution pipeline of `nac-test-pyats-common`.

The development shallowly embeds the Python sources:
  * `common/base_device_resolver.py` (`BaseDeviceResolver`): the template-method
    engine `get_resolved_inventory`, the default `build_device_dict`, the
    optional `validate_device_data` hook, `_safe_extract_device_id` and
    `_inject_credentials`;
  * `catc/device_resolver.py` (`CatalystCenterDeviceResolver`);
  * `sdwan/device_resolver.py` (`SDWANDeviceResolver`).

Configuration documents (the "NAC data model") are YAML-like nested mappings,
embedded as the inductive `Value` below.  Python exceptions that the engine
catches (`KeyError`, `ValueError`) are embedded as the error channel of
`Except String`; the carried string is Python's `str(e)` of the exception.
Process environment variables are an explicit association list.
-/

/-- A YAML/JSON-like value of the merged NAC data model: a string scalar, a
mapping with string keys, or a sequence. -/
inductive Value where
  | str (s : String)
  | dict (entries : List (String × Value))
  | list (items : List Value)

/-- First-match lookup in the entry list of a mapping (Python dict keys are
unique, so first-match agrees with Python lookup). -/
def lookupEntries : List (String × Value) → String → Option Value
  | [], _ => none
  | (k, v) :: rest, key => if k = key then some v else lookupEntries rest key

/-- Python `d.get(key)`: `None` when the key is absent.  Only mappings are
subject to `.get` in the sources; the non-mapping case is unreachable for the
document shapes the resolvers navigate. -/
def vGet : Value → String → Option Value
  | .dict es, key => lookupEntries es key
  | .str _, _ => none
  | .list _, _ => none

/-- Python `d.get(key, default)`. -/
def vGetD (v : Value) (key : String) (default : Value) : Value :=
  (vGet v key).getD default

/-- Python `key in d` for a mapping. -/
def dictHasKey (v : Value) (key : String) : Bool :=
  (vGet v key).isSome

/-- The items of a sequence value; Python `list(...)` / `.extend(...)` is only
applied to sequences in the navigated document shapes. -/
def listItems : Value → List Value
  | .list xs => xs
  | .str _ => []
  | .dict _ => []

mutual

/-- Python `repr` of a value (string escaping inside scalars is not modelled;
no claim depends on it). -/
def pyRepr : Value → String
  | .str s => "\x27" ++ s ++ "\x27"
  | .dict es => "\x7b" ++ String.intercalate ", " (pyReprEntries es) ++ "\x7d"
  | .list xs => "[" ++ String.intercalate ", " (pyReprList xs) ++ "]"

/-- Renders each item of a sequence, as in Python `repr` of a list. -/
def pyReprList : List Value → List String
  | [] => []
  | v :: vs => pyRepr v :: pyReprList vs

/-- Renders each binding of a mapping, as in Python `repr` of a dict. -/
def pyReprEntries : List (String × Value) → List String
  | [] => []
  | (k, v) :: es => ("\x27" ++ k ++ "\x27: " ++ pyRepr v) :: pyReprEntries es

end

/-- Python `str(v)`: a string converts to itself, containers render via
`repr`. -/
def pyStr : Value → String
  | .str s => s
  | .dict es => pyRepr (.dict es)
  | .list xs => pyRepr (.list xs)

/-- Python `repr` of a `str`, as used by the `{x!r}` f-string conversions in
`build_device_dict` error messages. -/
def pyReprStr (s : String) : String :=
  "\x27" ++ s ++ "\x27"

/-- Python `str.upper()`; the state values compared against are ASCII, where
`Char.toUpper` agrees with Python. -/
def pyUpper (s : String) : String :=
  ⟨s.data.map Char.toUpper⟩

/-- Python truthiness of a string: `""` is falsy. -/
def strTruthy (s : String) : Bool :=
  !s.data.isEmpty

/-- Python truthiness of a value: empty string, empty mapping and empty
sequence are falsy. -/
def truthy : Value → Bool
  | .str s => strTruthy s
  | .dict es => !es.isEmpty
  | .list xs => !xs.isEmpty

/-- Python truthiness of an optional value (`None` is falsy), as in
`if not device_data.get("name")`. -/
def optVTruthy : Option Value → Bool
  | none => false
  | some v => truthy v

/-- Python truthiness of an optional string (`None` and `""` are falsy), as in
the credential checks on `os.environ.get(...)`. -/
def optStrTruthy : Option String → Bool
  | none => false
  | some s => strTruthy s

/-- Python `c in s` for a single character, as in `"/" in ip_value`. -/
def containsChar (c : Char) : List Char → Bool
  | [] => false
  | x :: xs => x = c || containsChar c xs

/-- The characters before the first `/`, i.e. Python `s.split("/")[0]`. -/
def takeUntilSlash : List Char → List Char
  | [] => []
  | c :: cs => if c = '/' then [] else c :: takeUntilSlash cs

/-- The CIDR-stripping post-processing shared verbatim by both shipped
`extract_host_ip` implementations:
`ip_value.split("/")[0] if "/" in ip_value else ip_value`. -/
def stripCidr (s : String) : String :=
  if containsChar '/' s.data then ⟨takeUntilSlash s.data⟩ else s

/-- A resolved device record (`DeviceRecord`): string fields in insertion
order, as built by `build_device_dict` and mutated by `_inject_credentials`. -/
def Device := List (String × String)

/-- First-match lookup in a device record, Python `device_dict.get(key)`. -/
def devGet : Device → String → Option String
  | [], _ => none
  | (k, v) :: rest, key => if k = key then some v else devGet rest key

/-- Python `device[key] = value` on a device record: update the existing
binding in place, or append a fresh one. -/
def devSet : Device → String → String → Device
  | [], k, v => [(k, v)]
  | (k', v') :: rest, k, v =>
      if k' = k then (k, v) :: rest else (k', v') :: devSet rest k v

/-- An entry of `skipped_devices`: best-effort device id plus the
human-readable reason (`str(e)` of the caught exception). -/
structure SkipRecord where
  device_id : String
  reason : String
deriving DecidableEq

/-- An architecture adapter: the capability set a `BaseDeviceResolver`
subclass supplies to the template-method engine.  Extractors and hooks take
the data model (Python `self.data_model`) and the device fragment; failures
that Python raises as `KeyError`/`ValueError` are the `Except` error channel,
carrying `str(e)`. -/
structure Adapter where
  getArchitectureName : String
  navigateToDevices : Value → List Value
  validateDeviceData : Value → Value → Except String Unit
  extractDeviceId : Value → Value → Except String String
  buildDeviceDict : Value → Value → Except String Device
  getCredentialEnvVars : String × String

/-- `BaseDeviceResolver.build_device_dict`: compose the four extractors, check
each result is a non-empty string, and assemble the record.  The shipped
extractors always return `str` values, so the Python `isinstance(..., str)`
half of each check is statically true in this embedding. -/
def baseBuildDeviceDict
    (extractHostname extractHostIp extractOsType extractDeviceId :
      Value → Value → Except String String)
    (dm frag : Value) : Except String Device := do
  let hostname ← extractHostname dm frag
  let host ← extractHostIp dm frag
  let osType ← extractOsType dm frag
  let deviceId ← extractDeviceId dm frag
  if !strTruthy hostname then
    throw ("Invalid hostname: " ++ pyReprStr hostname)
  else if !strTruthy host then
    throw ("Invalid host IP: " ++ pyReprStr host)
  else if !strTruthy osType then
    throw ("Invalid OS type: " ++ pyReprStr osType)
  else if !strTruthy deviceId then
    throw ("Invalid device ID: " ++ pyReprStr deviceId)
  else
    pure [("hostname", hostname), ("host", host), ("os", osType),
          ("device_id", deviceId)]

/-- `BaseDeviceResolver._safe_extract_device_id`: swallow extraction failures
and substitute the sentinel. -/
def safeExtractDeviceId (a : Adapter) (dm frag : Value) : String :=
  match a.extractDeviceId dm frag with
  | .ok s => s
  | .error _ => "<unknown>"

/-- The per-fragment body of the `get_resolved_inventory` loop up to the point
where an exception may be raised: validation hook, record construction, and
the in-loop non-empty checks of `hostname`/`host`/`os`/`device_id`. -/
def resolveDevice (a : Adapter) (dm frag : Value) : Except String Device := do
  a.validateDeviceData dm frag
  let deviceDict ← a.buildDeviceDict dm frag
  if !optStrTruthy (devGet deviceDict "hostname") then
    throw "hostname is empty or missing"
  else if !optStrTruthy (devGet deviceDict "host") then
    throw "host (IP address) is empty or missing"
  else if !optStrTruthy (devGet deviceDict "os") then
    throw "os type is empty or missing"
  else if !optStrTruthy (devGet deviceDict "device_id") then
    throw "device_id is empty or missing"
  else
    pure deviceDict

/-- One iteration of the `for device_data in all_devices` loop: append the
record to `resolved_devices`, or catch the `(KeyError, ValueError)` and append
a `SkipRecord` built via the best-effort id extractor. -/
def processDevice (a : Adapter) (dm : Value)
    (acc : List Device × List SkipRecord) (frag : Value) :
    List Device × List SkipRecord :=
  match resolveDevice a dm frag with
  | .ok d => (acc.1 ++ [d], acc.2)
  | .error e => (acc.1, acc.2 ++ [⟨safeExtractDeviceId a dm frag, e⟩])

/-- The whole fragment loop, starting from the freshly reset
`resolved_devices = []` and `self.skipped_devices = []`. -/
def processAllDevices (a : Adapter) (dm : Value) (frags : List Value) :
    List Device × List SkipRecord :=
  frags.foldl (processDevice a dm) ([], [])

/-- Python `os.environ.get(key)` over an explicit process environment. -/
def envGet (env : List (String × String)) (key : String) : Option String :=
  match env with
  | [] => none
  | (k, v) :: rest => if k = key then some v else envGet rest key

/-- The variable names the adapter requires that are unset or empty in the
environment, in the order `_inject_credentials` collects them. -/
def missingCredentialVars (a : Adapter) (env : List (String × String)) :
    List String :=
  let usernameVar := a.getCredentialEnvVars.1
  let passwordVar := a.getCredentialEnvVars.2
  (if !optStrTruthy (envGet env usernameVar) then [usernameVar] else []) ++
  (if !optStrTruthy (envGet env passwordVar) then [passwordVar] else [])

/-- The message of the fatal `ValueError` raised by `_inject_credentials`. -/
def missingCredentialsMessage (a : Adapter) (env : List (String × String)) :
    String :=
  "Missing required credential environment variables: " ++
  String.intercalate ", " (missingCredentialVars a env) ++
  ". These are required for " ++ a.getArchitectureName ++ " D2D testing."

/-- `BaseDeviceResolver._inject_credentials`: read both environment variables,
fail fast when either is unset or empty, otherwise store the same
username/password pair into every record. -/
def injectCredentials (a : Adapter) (env : List (String × String))
    (devices : List Device) : Except String (List Device) :=
  let username := envGet env a.getCredentialEnvVars.1
  let password := envGet env a.getCredentialEnvVars.2
  if missingCredentialVars a env ≠ [] then
    .error (missingCredentialsMessage a env)
  else
    -- Both lookups are `some` non-empty strings here, so the defaults of
    -- `getD` are never used.
    .ok (devices.map fun d =>
      devSet (devSet d "username" (username.getD "")) "password"
        (password.getD ""))

/-- The resolver state a `BaseDeviceResolver` instance carries across calls:
`self.data_model` and `self.skipped_devices`. -/
structure ResolverState where
  dataModel : Value
  skippedDevices : List SkipRecord

/-- `BaseDeviceResolver.get_resolved_inventory`: reset `skipped_devices`,
navigate, run the per-fragment loop, then inject credentials (fail fast).
The first component is the returned list, or the message of the fatal
`ValueError`; the second is the instance state after the call (on the fatal
path Python has already repopulated `self.skipped_devices` before the raise,
since injection happens after the loop). -/
def getResolvedInventory (a : Adapter) (env : List (String × String))
    (st : ResolverState) :
    Except String (List Device) × ResolverState :=
  let allDevices := a.navigateToDevices st.dataModel
  let results := processAllDevices a st.dataModel allDevices
  (injectCredentials a env results.1,
   { st with skippedDevices := results.2 })

/-- `CatalystCenterDeviceResolver.navigate_to_devices`:
`catalyst_center.inventory.devices[]`, tolerating any missing intermediate
key. -/
def catcNavigateToDevices (dm : Value) : List Value :=
  let ccData := vGetD dm "catalyst_center" (.dict [])
  let inventory := vGetD ccData "inventory" (.dict [])
  listItems (vGetD inventory "devices" (.list []))

/-- `CatalystCenterDeviceResolver.validate_device_data`: skip devices whose
`state`, uppercased, is `INIT` or `PNP`.  Python applies `.upper()` to the
looked-up value, which is a string in the navigated schema; `.upper()` is
modelled on the string rendering of the value. -/
def catcValidateDeviceData (frag : Value) : Except String Unit :=
  let state := pyUpper (pyStr (vGetD frag "state" (.str "")))
  if state = "INIT" || state = "PNP" then
    .error ("Device has unsupported state \x27" ++ state ++
      "\x27 (devices in INIT or PNP state are not fully provisioned)")
  else
    .ok ()

/-- `CatalystCenterDeviceResolver.extract_hostname`: the `name` field,
raising when it is absent or falsy. -/
def catcExtractHostname (frag : Value) : Except String String :=
  let name := vGet frag "name"
  if !optVTruthy name then
    .error "Device missing \x27name\x27 field"
  else
    .ok (pyStr (name.getD (.str "")))

/-- `CatalystCenterDeviceResolver.extract_host_ip`: the `device_ip` field,
raising when absent or falsy, with CIDR stripping. -/
def catcExtractHostIp (frag : Value) : Except String String :=
  let deviceIp := vGet frag "device_ip"
  if !optVTruthy deviceIp then
    .error ("Device missing \x27device_ip\x27 field. " ++
      "Ensure device_ip is configured in the inventory.")
  else
    let ipValue := pyStr (deviceIp.getD (.str ""))
    .ok (stripCidr ipValue)

/-- `CatalystCenterDeviceResolver.extract_os_type`: the constant `iosxe`. -/
def catcExtractOsType (_frag : Value) : Except String String :=
  .ok "iosxe"

/-- Modelled from the spec: `CatalystCenterDeviceResolver.extract_device_id`
is declared abstract by the base class and exercised by the repository's unit
tests, but its implementation is not among the provided source files.  The
spec states that for the Catalyst-Center variant "device id and hostname both
come from field `name`", so the extractor coincides with `extract_hostname`. -/
def catcExtractDeviceId (frag : Value) : Except String String :=
  catcExtractHostname frag

/-- The Catalyst-Center adapter assembled for the engine; it inherits the
default `build_device_dict` and pairs `IOSXE_USERNAME`/`IOSXE_PASSWORD`. -/
def catcAdapter : Adapter where
  getArchitectureName := "catalyst_center"
  navigateToDevices := catcNavigateToDevices
  validateDeviceData := fun _dm frag => catcValidateDeviceData frag
  extractDeviceId := fun _dm frag => catcExtractDeviceId frag
  buildDeviceDict :=
    baseBuildDeviceDict
      (fun _dm frag => catcExtractHostname frag)
      (fun _dm frag => catcExtractHostIp frag)
      (fun _dm frag => catcExtractOsType frag)
      (fun _dm frag => catcExtractDeviceId frag)
  getCredentialEnvVars := ("IOSXE_USERNAME", "IOSXE_PASSWORD")

/-- `SDWANDeviceResolver.navigate_to_devices`: `sdwan.sites[].routers[]`,
flattened across sites, tolerating missing intermediate keys. -/
def sdwanNavigateToDevices (dm : Value) : List Value :=
  let sdwanData := vGetD dm "sdwan" (.dict [])
  (listItems (vGetD sdwanData "sites" (.list []))).foldl
    (fun devices site => devices ++ listItems (vGetD site "routers" (.list [])))
    []

/-- `SDWANDeviceResolver.extract_device_id`: the `chassis_id` field, raising
when absent or falsy. -/
def sdwanExtractDeviceId (frag : Value) : Except String String :=
  let chassisId := vGet frag "chassis_id"
  if !optVTruthy chassisId then
    .error "Router missing \x27chassis_id\x27 field"
  else
    .ok (pyStr (chassisId.getD (.str "")))

/-- `SDWANDeviceResolver.extract_hostname`:
`device_variables.system_hostname`, falling back to `chassis_id` (default
`"unknown"`) when the key is absent; the fallback only logs and never
raises. -/
def sdwanExtractHostname (frag : Value) : Except String String :=
  let deviceVars := vGetD frag "device_variables" (.dict [])
  if dictHasKey deviceVars "system_hostname" then
    .ok (pyStr (vGetD deviceVars "system_hostname" (.str "")))
  else
    .ok (pyStr (vGetD frag "chassis_id" (.str "unknown")))

/-- The key a truthy `management_ip_variable` value denotes when used for the
`ip_var not in device_vars` membership test and the `device_vars[ip_var]`
lookup.  In the navigated schema the value is a string; non-string keys never
match the string keys of `device_variables`. -/
def valueAsKey : Value → Option String
  | .str s => some s
  | .dict _ => none
  | .list _ => none

/-- `SDWANDeviceResolver.extract_host_ip`: cascading lookup of
`management_ip_variable` (router level first, then the global `sdwan` level),
raising when neither is configured or when the chosen variable is not a key of
`device_variables`, otherwise the CIDR-stripped value. -/
def sdwanExtractHostIp (dm frag : Value) : Except String String :=
  let deviceVars := vGetD frag "device_variables" (.dict [])
  let ipVarRouter := vGet frag "management_ip_variable"
  let ipVar :=
    if !optVTruthy ipVarRouter then
      vGet (vGetD dm "sdwan" (.dict [])) "management_ip_variable"
    else
      ipVarRouter
  if !optVTruthy ipVar then
    .error ("management_ip_variable not configured. " ++
      "Set it at router level or sdwan level in sites.nac.yaml.")
  else
    let ipVarValue := ipVar.getD (.str "")
    if !((valueAsKey ipVarValue).bind (fun k =>
          if dictHasKey deviceVars k then some k else none)).isSome then
      .error ("management_ip_variable \x27" ++ pyStr ipVarValue ++
        "\x27 not found in device_variables.")
    else
      let key := ((valueAsKey ipVarValue).getD "")
      let ipValue := pyStr (vGetD deviceVars key (.str ""))
      .ok (stripCidr ipValue)

/-- `SDWANDeviceResolver.extract_os_platform_type`: the PyATS abstraction
info, constants `os = "iosxe"` and `platform = "sdwan"`. -/
def sdwanExtractOsPlatformType (_frag : Value) : List (String × String) :=
  [("os", "iosxe"), ("platform", "sdwan")]

/-- Modelled from the spec: the SD-WAN variant's OS type.  The spec states the
SD-WAN "OS type constant `\"iosxe\"`".  The provided `SDWANDeviceResolver`
source implements `extract_os_platform_type` (whose `os` entry is `"iosxe"`)
but no `extract_os_type`, which the base class declares abstract and whose
implementation for this variant is not among the provided source files. -/
def sdwanExtractOsType (_frag : Value) : Except String String :=
  .ok "iosxe"

/-- `SDWANDeviceResolver.build_device_dict`: the base record extended with
`type = "router"`.  This is the entire override in the source: no `platform`
entry is ever stored into the record. -/
def sdwanBuildDeviceDict (dm frag : Value) : Except String Device := do
  let deviceDict ←
    baseBuildDeviceDict
      (fun _dm f => sdwanExtractHostname f)
      sdwanExtractHostIp
      (fun _dm f => sdwanExtractOsType f)
      (fun _dm f => sdwanExtractDeviceId f)
      dm frag
  pure (devSet deviceDict "type" "router")

/-- The SD-WAN adapter assembled for the engine; the validation hook is the
base-class no-op, and the credential pair is
`IOSXE_USERNAME`/`IOSXE_PASSWORD`. -/
def sdwanAdapter : Adapter where
  getArchitectureName := "sdwan"
  navigateToDevices := sdwanNavigateToDevices
  validateDeviceData := fun _dm _frag => .ok ()
  extractDeviceId := fun _dm frag => sdwanExtractDeviceId frag
  buildDeviceDict := sdwanBuildDeviceDict
  getCredentialEnvVars := ("IOSXE_USERNAME", "IOSXE_PASSWORD")

/-- Folding the device loop from an arbitrary accumulator appends to it. -/
theorem foldl_processDevice_acc (a : Adapter) (dm : Value) :
    ∀ (fs : List Value) (r : List Device) (s : List SkipRecord),
      fs.foldl (processDevice a dm) (r, s) =
        (r ++ (processAllDevices a dm fs).1,
         s ++ (processAllDevices a dm fs).2) := by
  intro fs
  induction fs with
  | nil => intro r s; simp [processAllDevices]
  | cons f fs ih =>
      intro r s
      simp only [processAllDevices, List.foldl_cons] at *
      cases h : resolveDevice a dm f with
      | ok d =>
          simp only [processDevice, h, List.nil_append]
          rw [ih, ih [d] []]
          simp [List.append_assoc]
      | error e =>
          simp only [processDevice, h, List.nil_append]
          rw [ih, ih [] [⟨safeExtractDeviceId a dm f, e⟩]]
          simp [List.append_assoc]

/-- Splitting the device loop around a distinguished fragment. -/
theorem processAllDevices_append (a : Adapter) (dm : Value)
    (xs ys : List Value) :
    processAllDevices a dm (xs ++ ys) =
      ((processAllDevices a dm xs).1 ++ (processAllDevices a dm ys).1,
       (processAllDevices a dm xs).2 ++ (processAllDevices a dm ys).2) := by
  simp only [processAllDevices, List.foldl_append]
  have h := foldl_processDevice_acc a dm ys
    (processAllDevices a dm xs).1 (processAllDevices a dm xs).2
  simpa [processAllDevices] using h

/-- C1: per-device isolation.  Any per-fragment failure (validation
rejection, field-extraction failure inside `build_device_dict`, or the
in-loop non-empty-field check) is caught at the per-device boundary and
converted into a `SkipRecord` whose id comes from the best-effort extractor,
and the siblings before and after the malformed fragment are resolved exactly
as they would be on their own; the best-effort extractor substitutes the
`"<unknown>"` sentinel instead of raising when id extraction itself fails. -/
theorem per_device_isolation (a : Adapter) (dm : Value)
    (fs1 fs2 : List Value) (frag : Value) (e : String)
    (hfail : resolveDevice a dm frag = .error e) :
    processAllDevices a dm (fs1 ++ frag :: fs2) =
      ((processAllDevices a dm fs1).1 ++ (processAllDevices a dm fs2).1,
       (processAllDevices a dm fs1).2 ++
         ⟨safeExtractDeviceId a dm frag, e⟩ ::
           (processAllDevices a dm fs2).2) ∧
    (∀ e2, a.extractDeviceId dm frag = .error e2 →
       safeExtractDeviceId a dm frag = "<unknown>") := by
  constructor
  · have hsplit := processAllDevices_append a dm fs1 (frag :: fs2)
    rw [hsplit]
    have hcons : processAllDevices a dm (frag :: fs2) =
        ((processAllDevices a dm fs2).1,
         ⟨safeExtractDeviceId a dm frag, e⟩ ::
           (processAllDevices a dm fs2).2) := by
      simp only [processAllDevices, List.foldl_cons, processDevice, hfail]
      have h := foldl_processDevice_acc a dm fs2 []
        [⟨safeExtractDeviceId a dm frag, e⟩]
      simpa [processAllDevices] using h
    rw [hcons]
  · intro e2 h2
    simp [safeExtractDeviceId, h2]

/-- A well-formed Catalyst-Center device fragment, as in the repository's
unit-test fixtures. -/
def catcFragGood1 : Value :=
  .dict [("name", .str "P3-BN1"), ("device_ip", .str "192.168.38.1")]

/-- A Catalyst-Center device fragment missing the required `name` field. -/
def catcFragNoName : Value :=
  .dict [("device_ip", .str "192.168.38.2")]

/-- A second well-formed Catalyst-Center device fragment. -/
def catcFragGood2 : Value :=
  .dict [("name", .str "P3-BN3"), ("device_ip", .str "192.168.38.3")]

/-- Witness for C1 at a concrete batch: the middle fragment lacks `name`, is
skipped with the extractor's reason, and both siblings still resolve; the
best-effort id extractor yields the sentinel for it. -/
theorem per_device_isolation_witness :
    (processAllDevices catcAdapter (Value.dict [])
        ([catcFragGood1] ++ catcFragNoName :: [catcFragGood2]) =
      ((processAllDevices catcAdapter (Value.dict []) [catcFragGood1]).1 ++
         (processAllDevices catcAdapter (Value.dict []) [catcFragGood2]).1,
       (processAllDevices catcAdapter (Value.dict []) [catcFragGood1]).2 ++
         ⟨safeExtractDeviceId catcAdapter (Value.dict []) catcFragNoName,
          "Device missing \x27name\x27 field"⟩ ::
           (processAllDevices catcAdapter (Value.dict []) [catcFragGood2]).2)) ∧
    safeExtractDeviceId catcAdapter (Value.dict []) catcFragNoName =
      "<unknown>" :=
  ⟨(per_device_isolation catcAdapter (Value.dict []) [catcFragGood1]
      [catcFragGood2] catcFragNoName "Device missing \x27name\x27 field"
      (by rfl)).1,
   (per_device_isolation catcAdapter (Value.dict []) [catcFragGood1]
      [catcFragGood2] catcFragNoName "Device missing \x27name\x27 field"
      (by rfl)).2 "Device missing \x27name\x27 field" (by rfl)⟩

/-- C9: idempotent reset of outputs.  `get_resolved_inventory` resets
`skipped_devices` at the start of the call, so the outcome and the resulting
skip list are independent of whatever a previous call left in the state, and
the skip list reflects exactly the processing of the current document. -/
theorem idempotent_reset (a : Adapter) (env : List (String × String))
    (st : ResolverState) :
    getResolvedInventory a env st =
      getResolvedInventory a env ⟨st.dataModel, []⟩ ∧
    (getResolvedInventory a env st).2.skippedDevices =
      (processAllDevices a st.dataModel
        (a.navigateToDevices st.dataModel)).2 := by
  cases st
  exact ⟨rfl, rfl⟩

/-- The sample SD-WAN router fragment of the repository's unit-test
fixtures. -/
def sdwanDemoRouter : Value :=
  .dict [("chassis_id", .str "ABC123"),
         ("device_variables",
          .dict [("system_hostname", .str "router1"),
                 ("vpn511_int1_if_ipv4_address", .str "10.1.1.1/32")])]

/-- The sample SD-WAN data model of the repository's unit-test fixtures
(restricted to the parts the resolver reads). -/
def sdwanDemoDataModel : Value :=
  .dict [("sdwan",
          .dict [("management_ip_variable",
                  .str "vpn511_int1_if_ipv4_address"),
                 ("sites",
                  .list [.dict [("name", .str "site1"),
                                ("routers", .list [sdwanDemoRouter])]])])]

/-- C4: the SD-WAN record shape.  On the repository's own sample router the
overridden build step produces a record whose `os` is `"iosxe"` and whose
`type` is `"router"`, but which carries NO `platform` entry at all, even
though `extract_os_platform_type` — which the module docstring, the
`build_device_dict` docstring and the unit tests designate as the source of
`platform = "sdwan"` — does return `platform = "sdwan"`.  The claim (and the
code's own tests) require `platform = "sdwan"` in the built record; the
shipped `build_device_dict` only adds `type`. -/
theorem sdwan_record_shape_platform_missing :
    sdwanBuildDeviceDict sdwanDemoDataModel sdwanDemoRouter =
      .ok [("hostname", "router1"), ("host", "10.1.1.1"), ("os", "iosxe"),
           ("device_id", "ABC123"), ("type", "router")] ∧
    devGet [("hostname", "router1"), ("host", "10.1.1.1"), ("os", "iosxe"),
            ("device_id", "ABC123"), ("type", "router")] "platform" = none ∧
    devGet (sdwanExtractOsPlatformType sdwanDemoRouter) "platform" =
      some "sdwan" ∧
    devGet [("hostname", "router1"), ("host", "10.1.1.1"), ("os", "iosxe"),
            ("device_id", "ABC123"), ("type", "router")] "os" = some "iosxe" ∧
    devGet [("hostname", "router1"), ("host", "10.1.1.1"), ("os", "iosxe"),
            ("device_id", "ABC123"), ("type", "router")] "type" =
      some "router" :=
  ⟨rfl, rfl, rfl, rfl, rfl⟩

/-- C2: fail-fast on credentials.  If either credential environment variable
named by the adapter is unset or empty, `get_resolved_inventory` returns the
single fatal error instead of any device list; the missing-variables list of
the message contains exactly the unset-or-empty names (both, in order, when
both are missing); and conversely every fatal error the resolver surfaces is
this one. -/
theorem fail_fast_on_credentials (a : Adapter) (env : List (String × String))
    (st : ResolverState) :
    ((optStrTruthy (envGet env a.getCredentialEnvVars.1) = false ∨
      optStrTruthy (envGet env a.getCredentialEnvVars.2) = false) →
      (getResolvedInventory a env st).1 =
        .error ("Missing required credential environment variables: " ++
          String.intercalate ", " (missingCredentialVars a env) ++
          ". These are required for " ++ a.getArchitectureName ++
          " D2D testing.")) ∧
    ((optStrTruthy (envGet env a.getCredentialEnvVars.1) = false ∧
      optStrTruthy (envGet env a.getCredentialEnvVars.2) = false) →
      missingCredentialVars a env =
        [a.getCredentialEnvVars.1, a.getCredentialEnvVars.2]) ∧
    ((optStrTruthy (envGet env a.getCredentialEnvVars.1) = false ∧
      optStrTruthy (envGet env a.getCredentialEnvVars.2) = true) →
      missingCredentialVars a env = [a.getCredentialEnvVars.1]) ∧
    ((optStrTruthy (envGet env a.getCredentialEnvVars.1) = true ∧
      optStrTruthy (envGet env a.getCredentialEnvVars.2) = false) →
      missingCredentialVars a env = [a.getCredentialEnvVars.2]) ∧
    (∀ e, (getResolvedInventory a env st).1 = .error e →
      (optStrTruthy (envGet env a.getCredentialEnvVars.1) = false ∨
       optStrTruthy (envGet env a.getCredentialEnvVars.2) = false) ∧
      e = missingCredentialsMessage a env) := by
  cases hu : optStrTruthy (envGet env a.getCredentialEnvVars.1) <;>
    cases hp : optStrTruthy (envGet env a.getCredentialEnvVars.2) <;>
      simp [getResolvedInventory, injectCredentials, missingCredentialVars,
        missingCredentialsMessage, hu, hp]

/-- Witness for C2: with an empty environment, the Catalyst-Center adapter's
call fails with the fatal message naming both variables and the
architecture. -/
theorem fail_fast_on_credentials_witness :
    (getResolvedInventory catcAdapter [] ⟨Value.dict [], []⟩).1 =
      .error ("Missing required credential environment variables: " ++
        "IOSXE_USERNAME, IOSXE_PASSWORD. " ++
        "These are required for catalyst_center D2D testing.") :=
  ((fail_fast_on_credentials catcAdapter [] ⟨Value.dict [], []⟩).1
    (Or.inl (by rfl))).trans (by rfl)

/-- C10: the credential check is performed unconditionally after fragment
processing, so even a document that yields no resolved device (zero
fragments, or every fragment skipped) still triggers the fatal
missing-credentials error when a required variable is unset or empty. -/
theorem credential_check_on_empty_inventory (a : Adapter)
    (env : List (String × String)) (st : ResolverState)
    (_hempty : (processAllDevices a st.dataModel
        (a.navigateToDevices st.dataModel)).1 = [])
    (hmiss : optStrTruthy (envGet env a.getCredentialEnvVars.1) = false ∨
      optStrTruthy (envGet env a.getCredentialEnvVars.2) = false) :
    (getResolvedInventory a env st).1 =
      .error (missingCredentialsMessage a env) := by
  rcases hmiss with h | h <;>
    simp [getResolvedInventory, injectCredentials, missingCredentialVars,
      missingCredentialsMessage, h]

/-- Witness for C10: an empty Catalyst-Center document yields zero fragments,
and the missing-credentials error is still raised. -/
theorem credential_check_on_empty_inventory_witness :
    (processAllDevices catcAdapter (Value.dict [])
      (catcAdapter.navigateToDevices (Value.dict []))).1 = [] ∧
    (getResolvedInventory catcAdapter [] ⟨Value.dict [], []⟩).1 =
      .error (missingCredentialsMessage catcAdapter []) :=
  ⟨by rfl,
   credential_check_on_empty_inventory catcAdapter [] ⟨Value.dict [], []⟩
     (by rfl) (Or.inl (by rfl))⟩

/-- Storing a key then reading it back yields the stored value. -/
theorem devGet_devSet_self (d : Device) (k v : String) :
    devGet (devSet d k v) k = some v := by
  induction d with
  | nil => simp [devSet, devGet]
  | cons e rest ih =>
      obtain ⟨k', v'⟩ := e
      by_cases h : k' = k <;> simp [devSet, devGet, h, ih]

/-- Storing a key leaves other keys unchanged. -/
theorem devGet_devSet_other (d : Device) (k k' v : String) (h : k' ≠ k) :
    devGet (devSet d k v) k' = devGet d k' := by
  have hk : k ≠ k' := fun he => h he.symm
  induction d with
  | nil => simp [devSet, devGet, hk]
  | cons e rest ih =>
      obtain ⟨k₀, v₀⟩ := e
      by_cases h0 : k₀ = k
      · subst h0
        simp [devSet, devGet, hk]
      · simp [devSet, devGet, h0, ih]

/-- C8: credential injection completeness.  When both credential environment
variables are present and non-empty, the call succeeds and every returned
record carries a `username` and a `password` binding equal to the two
environment values at call time (the same pair in every record). -/
theorem credential_injection_completeness (a : Adapter)
    (env : List (String × String)) (st : ResolverState) (u p : String)
    (hu : envGet env a.getCredentialEnvVars.1 = some u)
    (hu' : strTruthy u = true)
    (hp : envGet env a.getCredentialEnvVars.2 = some p)
    (hp' : strTruthy p = true) :
    ∃ devs, (getResolvedInventory a env st).1 = .ok devs ∧
      ∀ d ∈ devs, devGet d "username" = some u ∧
        devGet d "password" = some p := by
  have hmiss : missingCredentialVars a env = [] := by
    simp [missingCredentialVars, hu, hp, optStrTruthy, hu', hp']
  refine ⟨((processAllDevices a st.dataModel
      (a.navigateToDevices st.dataModel)).1).map
        (fun d => devSet (devSet d "username" u) "password" p), ?_, ?_⟩
  · simp [getResolvedInventory, injectCredentials, hmiss, hu, hp]
  · intro d hd
    rcases List.mem_map.mp hd with ⟨d0, _, rfl⟩
    refine ⟨?_, devGet_devSet_self _ "password" p⟩
    rw [devGet_devSet_other _ _ _ _ (by decide)]
    exact devGet_devSet_self d0 "username" u

/-- The credential environment of the repository's unit-test fixtures. -/
def credEnvDemo : List (String × String) :=
  [("IOSXE_USERNAME", "test_user"), ("IOSXE_PASSWORD", "test_pass")]

/-- A one-device Catalyst-Center document built from `catcFragGood1`. -/
def catcDemoDataModel : Value :=
  .dict [("catalyst_center",
          .dict [("inventory",
                  .dict [("devices", .list [catcFragGood1])])])]

/-- The record `catcFragGood1` resolves to under `credEnvDemo`. -/
def catcDemoResolvedRecord : Device :=
  [("hostname", "P3-BN1"), ("host", "192.168.38.1"), ("os", "iosxe"),
   ("device_id", "P3-BN1"), ("username", "test_user"),
   ("password", "test_pass")]

/-- Witness for C8: resolving the one-device document under the demo
environment returns exactly one record carrying the environment's username
and password. -/
theorem credential_injection_completeness_witness :
    (getResolvedInventory catcAdapter credEnvDemo
        ⟨catcDemoDataModel, []⟩).1 = .ok [catcDemoResolvedRecord] ∧
    devGet catcDemoResolvedRecord "username" = some "test_user" ∧
    devGet catcDemoResolvedRecord "password" = some "test_pass" := by
  obtain ⟨devs, hok, hall⟩ :=
    credential_injection_completeness catcAdapter credEnvDemo
      ⟨catcDemoDataModel, []⟩ "test_user" "test_pass" rfl (by decide) rfl
      (by decide)
  have hdevs : devs = [catcDemoResolvedRecord] :=
    Except.ok.inj (hok.symm.trans (by rfl))
  have hmem : catcDemoResolvedRecord ∈ devs := by
    rw [hdevs]; exact List.mem_singleton.mpr rfl
  exact ⟨by rfl, (hall _ hmem).1, (hall _ hmem).2⟩

/-- A list with a `/` somewhere satisfies the Python `"/" in s` test. -/
theorem containsChar_slash_append (pre post : List Char) :
    containsChar '/' (pre ++ '/' :: post) = true := by
  induction pre with
  | nil => simp [containsChar]
  | cons x xs ih => simp [containsChar, ih]

/-- `split("/")[0]` of a string whose leading run has no `/` is that run. -/
theorem takeUntilSlash_append (pre post : List Char)
    (h : containsChar '/' pre = false) :
    takeUntilSlash (pre ++ '/' :: post) = pre := by
  induction pre with
  | nil => simp [takeUntilSlash]
  | cons x xs ih =>
      simp only [containsChar, Bool.or_eq_false_iff,
        decide_eq_false_iff_not] at h
      simp [takeUntilSlash, h.1, ih h.2]

/-- CIDR stripping on a value with a `/`: everything before the first `/`. -/
theorem stripCidr_slash (pre post : List Char)
    (h : containsChar '/' pre = false) :
    stripCidr ⟨pre ++ '/' :: post⟩ = ⟨pre⟩ := by
  simp [stripCidr, containsChar_slash_append, takeUntilSlash_append, h]

/-- CIDR stripping on a value without `/`: unchanged. -/
theorem stripCidr_no_slash (s : String)
    (h : containsChar '/' s.data = false) :
    stripCidr s = s := by
  simp [stripCidr, h]

/-- A string holding a `/` is non-empty, hence truthy. -/
theorem append_slash_truthy (pre post : List Char) :
    strTruthy ⟨pre ++ '/' :: post⟩ = true := by
  cases pre <;> rfl

/-- An SD-WAN router fragment with a router-level `management_ip_variable`
pointing at the single device variable holding `ip`. -/
def sdwanIpFrag (ip : String) : Value :=
  .dict [("chassis_id", .str "ABC123"),
         ("management_ip_variable", .str "mgmt_ip"),
         ("device_variables", .dict [("mgmt_ip", .str ip)])]

/-- On `sdwanIpFrag` the SD-WAN IP extractor returns the CIDR-stripped
variable value, whatever the data model holds. -/
theorem sdwanIpFrag_hostIp (dm : Value) (ip : String) :
    sdwanExtractHostIp dm (sdwanIpFrag ip) = .ok (stripCidr ip) := rfl

/-- C3: universal CIDR stripping.  For both adapter variants, `extract_host_ip`
on a fragment whose raw IP value contains a `/` returns the part before the
first `/`, and on a value without `/` returns it unchanged. -/
theorem universal_cidr_stripping :
    (∀ frag pre post, containsChar '/' pre = false →
       vGet frag "device_ip" = some (.str ⟨pre ++ '/' :: post⟩) →
       catcExtractHostIp frag = .ok ⟨pre⟩) ∧
    (∀ frag s, containsChar '/' s.data = false → strTruthy s = true →
       vGet frag "device_ip" = some (.str s) →
       catcExtractHostIp frag = .ok s) ∧
    (∀ dm pre post, containsChar '/' pre = false →
       sdwanExtractHostIp dm (sdwanIpFrag ⟨pre ++ '/' :: post⟩) =
         .ok ⟨pre⟩) ∧
    (∀ dm s, containsChar '/' s.data = false →
       sdwanExtractHostIp dm (sdwanIpFrag s) = .ok s) := by
  refine ⟨?_, ?_, ?_, ?_⟩
  · intro frag pre post hpre hip
    simp [catcExtractHostIp, hip, optVTruthy, truthy, append_slash_truthy,
      pyStr, stripCidr_slash pre post hpre]
  · intro frag s hs hst hip
    simp [catcExtractHostIp, hip, optVTruthy, truthy, hst, pyStr,
      stripCidr_no_slash s hs]
  · intro dm pre post hpre
    rw [sdwanIpFrag_hostIp, stripCidr_slash pre post hpre]
  · intro dm s hs
    rw [sdwanIpFrag_hostIp, stripCidr_no_slash s hs]

/-- Witness for C3 at the spec's examples: `"10.1.1.100/32"` strips to
`"10.1.1.100"` and `"10.1.1.1"` is returned as is, on both variants. -/
theorem universal_cidr_stripping_witness :
    catcExtractHostIp (Value.dict [("device_ip", .str "10.1.1.100/32")]) =
      .ok "10.1.1.100" ∧
    catcExtractHostIp (Value.dict [("device_ip", .str "10.1.1.1")]) =
      .ok "10.1.1.1" ∧
    sdwanExtractHostIp (Value.dict []) (sdwanIpFrag "10.1.1.100/32") =
      .ok "10.1.1.100" ∧
    sdwanExtractHostIp (Value.dict []) (sdwanIpFrag "10.1.1.1") =
      .ok "10.1.1.1" :=
  ⟨(universal_cidr_stripping.1 (Value.dict [("device_ip",
      .str "10.1.1.100/32")]) "10.1.1.100".data "32".data (by decide)
      (by rfl)).trans (by rfl),
   universal_cidr_stripping.2.1 (Value.dict [("device_ip",
      .str "10.1.1.1")]) "10.1.1.1" (by decide) (by decide) (by rfl),
   (universal_cidr_stripping.2.2.1 (Value.dict []) "10.1.1.100".data
      "32".data (by decide)).trans (by rfl),
   universal_cidr_stripping.2.2.2 (Value.dict []) "10.1.1.1" (by decide)⟩

/-- C5: Catalyst-Center field mapping.  Navigation follows
`catalyst_center.inventory.devices[]`; the device id and the hostname are
both the `name` field; the host IP is the `device_ip` field with any CIDR
suffix stripped (the part before the first `/` when one is present, the value
unchanged otherwise); and the OS type is the constant `"iosxe"`. -/
theorem catc_field_mapping :
    (∀ ds, catcNavigateToDevices
        (.dict [("catalyst_center",
                 .dict [("inventory",
                         .dict [("devices", .list ds)])])]) = ds) ∧
    (∀ frag n, vGet frag "name" = some (.str n) → strTruthy n = true →
       catcExtractHostname frag = .ok n ∧ catcExtractDeviceId frag = .ok n) ∧
    (∀ frag pre post, containsChar '/' pre = false →
       vGet frag "device_ip" = some (.str ⟨pre ++ '/' :: post⟩) →
       catcExtractHostIp frag = .ok ⟨pre⟩) ∧
    (∀ frag s, containsChar '/' s.data = false → strTruthy s = true →
       vGet frag "device_ip" = some (.str s) →
       catcExtractHostIp frag = .ok s) ∧
    (∀ frag, catcExtractOsType frag = .ok "iosxe") := by
  refine ⟨fun ds => rfl, ?_, ?_, ?_, fun frag => rfl⟩
  · intro frag n hn hnt
    constructor <;>
      simp [catcExtractHostname, catcExtractDeviceId, hn, optVTruthy,
        truthy, hnt, pyStr]
  · intro frag pre post hpre hip
    simp [catcExtractHostIp, hip, optVTruthy, truthy, append_slash_truthy,
      pyStr, stripCidr_slash pre post hpre]
  · intro frag s hs hst hip
    simp [catcExtractHostIp, hip, optVTruthy, truthy, hst, pyStr,
      stripCidr_no_slash s hs]

/-- Witness for C5 on the unit-test fixture values. -/
theorem catc_field_mapping_witness :
    catcNavigateToDevices
      (Value.dict [("catalyst_center",
        .dict [("inventory",
          .dict [("devices", .list [catcFragGood1])])])]) = [catcFragGood1] ∧
    catcExtractHostname catcFragGood1 = .ok "P3-BN1" ∧
    catcExtractDeviceId catcFragGood1 = .ok "P3-BN1" ∧
    catcExtractHostIp catcFragGood1 = .ok "192.168.38.1" ∧
    catcExtractOsType catcFragGood1 = .ok "iosxe" :=
  ⟨catc_field_mapping.1 [catcFragGood1],
   (catc_field_mapping.2.1 catcFragGood1 "P3-BN1" (by rfl) (by decide)).1,
   (catc_field_mapping.2.1 catcFragGood1 "P3-BN1" (by rfl) (by decide)).2,
   catc_field_mapping.2.2.2.1 catcFragGood1 "192.168.38.1" (by decide)
     (by decide) (by rfl),
   catc_field_mapping.2.2.2.2 catcFragGood1⟩

/-- C7: Catalyst-Center state-based skip.  A string `state` whose uppercasing
is `INIT` or `PNP` is rejected with the exact reason text; every other string
state (the empty string included) passes, and so does an absent `state`
field. -/
theorem catc_state_based_skip :
    (∀ frag s, vGet frag "state" = some (.str s) →
       (pyUpper s = "INIT" ∨ pyUpper s = "PNP") →
       catcValidateDeviceData frag =
         .error ("Device has unsupported state \x27" ++ pyUpper s ++
           "\x27 (devices in INIT or PNP state are not fully provisioned)")) ∧
    (∀ frag s, vGet frag "state" = some (.str s) →
       pyUpper s ≠ "INIT" → pyUpper s ≠ "PNP" →
       catcValidateDeviceData frag = .ok ()) ∧
    (∀ frag, vGet frag "state" = none →
       catcValidateDeviceData frag = .ok ()) := by
  refine ⟨?_, ?_, ?_⟩
  · intro frag s hs hup
    rcases hup with h | h <;>
      simp [catcValidateDeviceData, vGetD, hs, pyStr, h]
  · intro frag s hs h1 h2
    simp [catcValidateDeviceData, vGetD, hs, pyStr, h1, h2]
  · intro frag hs
    simp [catcValidateDeviceData, vGetD, hs, pyStr, pyUpper]

/-- Witness for C7: lowercase `"init"` and `"pnp"` are rejected with the
exact reason, while `"ACCESS"`, the empty string, and an absent field
pass. -/
theorem catc_state_based_skip_witness :
    catcValidateDeviceData (Value.dict [("state", .str "init")]) =
      .error ("Device has unsupported state \x27INIT\x27 " ++
        "(devices in INIT or PNP state are not fully provisioned)") ∧
    catcValidateDeviceData (Value.dict [("state", .str "pnp")]) =
      .error ("Device has unsupported state \x27PNP\x27 " ++
        "(devices in INIT or PNP state are not fully provisioned)") ∧
    catcValidateDeviceData (Value.dict [("state", .str "ACCESS")]) =
      .ok () ∧
    catcValidateDeviceData (Value.dict [("state", .str "")]) = .ok () ∧
    catcValidateDeviceData (Value.dict []) = .ok () :=
  ⟨(catc_state_based_skip.1 (Value.dict [("state", .str "init")]) "init"
      (by rfl) (Or.inl (by decide))).trans (by rfl),
   (catc_state_based_skip.1 (Value.dict [("state", .str "pnp")]) "pnp"
      (by rfl) (Or.inr (by decide))).trans (by rfl),
   catc_state_based_skip.2.1 (Value.dict [("state", .str "ACCESS")])
     "ACCESS" (by rfl) (by decide) (by decide),
   catc_state_based_skip.2.1 (Value.dict [("state", .str "")]) ""
     (by rfl) (by decide) (by decide),
   catc_state_based_skip.2.2 (Value.dict []) (by rfl)⟩

/-- C6: SD-WAN management-IP cascade.  A truthy router-level
`management_ip_variable` is used whatever the global `sdwan` level holds
(precedence); when neither level supplies a truthy value the extractor fails
with the "not configured" error; when the chosen variable (router-level or
global) is not a key of `device_variables` it fails with the
"not found in device_variables" error naming that variable; otherwise the
value found under that key is used, CIDR-stripped. -/
theorem sdwan_management_ip_cascade :
    (∀ dm frag rv dvs ip,
       vGet frag "management_ip_variable" = some (.str rv) →
       strTruthy rv = true →
       vGetD frag "device_variables" (.dict []) = .dict dvs →
       lookupEntries dvs rv = some (.str ip) →
       sdwanExtractHostIp dm frag = .ok (stripCidr ip)) ∧
    (∀ dm frag rv dvs,
       vGet frag "management_ip_variable" = some (.str rv) →
       strTruthy rv = true →
       vGetD frag "device_variables" (.dict []) = .dict dvs →
       lookupEntries dvs rv = none →
       sdwanExtractHostIp dm frag =
         .error ("management_ip_variable \x27" ++ rv ++
           "\x27 not found in device_variables.")) ∧
    (∀ dm frag,
       optVTruthy (vGet frag "management_ip_variable") = false →
       optVTruthy (vGet (vGetD dm "sdwan" (.dict []))
         "management_ip_variable") = false →
       sdwanExtractHostIp dm frag =
         .error ("management_ip_variable not configured. " ++
           "Set it at router level or sdwan level in sites.nac.yaml.")) ∧
    (∀ dm frag gv dvs,
       optVTruthy (vGet frag "management_ip_variable") = false →
       vGet (vGetD dm "sdwan" (.dict [])) "management_ip_variable" =
         some (.str gv) →
       strTruthy gv = true →
       vGetD frag "device_variables" (.dict []) = .dict dvs →
       lookupEntries dvs gv = none →
       sdwanExtractHostIp dm frag =
         .error ("management_ip_variable \x27" ++ gv ++
           "\x27 not found in device_variables.")) ∧
    (∀ dm frag gv dvs ip,
       optVTruthy (vGet frag "management_ip_variable") = false →
       vGet (vGetD dm "sdwan" (.dict [])) "management_ip_variable" =
         some (.str gv) →
       strTruthy gv = true →
       vGetD frag "device_variables" (.dict []) = .dict dvs →
       lookupEntries dvs gv = some (.str ip) →
       sdwanExtractHostIp dm frag = .ok (stripCidr ip)) := by
  refine ⟨?_, ?_, ?_, ?_, ?_⟩
  · intro dm frag rv dvs ip hr hrt hdv hlook
    simp only [sdwanExtractHostIp, hr, hdv]
    simp [optVTruthy, truthy, hrt, valueAsKey, dictHasKey, vGet, vGetD,
      hlook, pyStr]
  · intro dm frag rv dvs hr hrt hdv hlook
    simp only [sdwanExtractHostIp, hr, hdv]
    simp [optVTruthy, truthy, hrt, valueAsKey, dictHasKey, vGet, vGetD,
      hlook, pyStr]
  · intro dm frag hr hg
    simp only [sdwanExtractHostIp, hr, hg]
    simp [hg]
  · intro dm frag gv dvs hr hg hgt hdv hlook
    simp only [sdwanExtractHostIp, hr, hg, hdv]
    simp [optVTruthy, truthy, hgt, valueAsKey, dictHasKey, vGet, vGetD,
      hlook, pyStr]
  · intro dm frag gv dvs ip hr hg hgt hdv hlook
    simp only [sdwanExtractHostIp, hr, hg, hdv]
    simp [optVTruthy, truthy, hgt, valueAsKey, dictHasKey, vGet, vGetD,
      hlook, pyStr]

/-- An SD-WAN router with a router-level override of
`management_ip_variable`, as in the repository's unit-test fixtures. -/
def sdwanRouterOverrideFrag : Value :=
  .dict [("chassis_id", .str "ABC123"),
         ("management_ip_variable", .str "custom_mgmt_ip"),
         ("device_variables",
          .dict [("system_hostname", .str "router1"),
                 ("vpn511_int1_if_ipv4_address", .str "10.1.1.1/32"),
                 ("custom_mgmt_ip", .str "192.168.1.100/32")])]

/-- An SD-WAN router whose `device_variables` lacks the globally selected
management-IP variable. -/
def sdwanRouterMissingVarFrag : Value :=
  .dict [("chassis_id", .str "DEF456"),
         ("device_variables", .dict [("system_hostname", .str "router2")])]

/-- Witness for C6: with both levels set, the router-level variable wins; with
neither, the "not configured" error; with the selected variable absent from
`device_variables`, the "not found" error naming it; with only the global
level, the global variable's (stripped) value. -/
theorem sdwan_management_ip_cascade_witness :
    sdwanExtractHostIp sdwanDemoDataModel sdwanRouterOverrideFrag =
      .ok "192.168.1.100" ∧
    sdwanExtractHostIp (Value.dict [])
      (Value.dict [("chassis_id", .str "X")]) =
      .error ("management_ip_variable not configured. " ++
        "Set it at router level or sdwan level in sites.nac.yaml.") ∧
    sdwanExtractHostIp sdwanDemoDataModel sdwanRouterMissingVarFrag =
      .error ("management_ip_variable \x27vpn511_int1_if_ipv4_address\x27 " ++
        "not found in device_variables.") ∧
    sdwanExtractHostIp sdwanDemoDataModel sdwanDemoRouter =
      .ok "10.1.1.1" :=
  ⟨(sdwan_management_ip_cascade.1 sdwanDemoDataModel
      sdwanRouterOverrideFrag "custom_mgmt_ip"
      [("system_hostname", .str "router1"),
       ("vpn511_int1_if_ipv4_address", .str "10.1.1.1/32"),
       ("custom_mgmt_ip", .str "192.168.1.100/32")]
      "192.168.1.100/32" (by rfl) (by decide) (by rfl) (by rfl)).trans
      (by rfl),
   sdwan_management_ip_cascade.2.2.1 (Value.dict [])
     (Value.dict [("chassis_id", .str "X")]) (by rfl) (by rfl),
   sdwan_management_ip_cascade.2.2.2.1 sdwanDemoDataModel
     sdwanRouterMissingVarFrag "vpn511_int1_if_ipv4_address"
     [("system_hostname", .str "router2")] (by rfl) (by rfl) (by decide)
     (by rfl) (by rfl),
   (sdwan_management_ip_cascade.2.2.2.2 sdwanDemoDataModel sdwanDemoRouter
     "vpn511_int1_if_ipv4_address"
     [("system_hostname", .str "router1"),
      ("vpn511_int1_if_ipv4_address", .str "10.1.1.1/32")]
     "10.1.1.1/32" (by rfl) (by rfl) (by decide) (by rfl) (by rfl)).trans
     (by rfl)⟩
